import Mathlib

/-!
Verification of the instabot caption worker (src/caption/main.go).

The Go program is a Redis pub/sub worker: `handleRedis` decodes each inbound
message as `PhotoMetadata`, and when the caption is empty calls `process`
(fetch image, POST to the captioning API, parse the JSON response), then
writes the caption into Redis with HSet and republishes the enriched record.

Shallow embedding conventions:
- External collaborators (net/http, the Redis client, encoding/json's
  byte-level parser) are modelled as an oracle structure `GoWorld` whose
  fields give the result of each external call; `Option` `none` stands for
  Go's (nil, err) outcome of a failed call.
- Observable behaviour is a trace of `Effect`s (log lines, HTTP calls, HSet
  writes, publishes) paired with an `Outcome`: normal return or a runtime
  panic (nil-pointer dereference).
- JSON payloads are modelled at the AST level (`Json`); a wire payload is
  `Option Json`, `none` standing for bytes that do not parse as JSON.
  `marshalPhotoMetadata` / `unmarshalPhotoMetadata` mirror the semantics of
  encoding/json for this struct and its field tags: unknown keys are
  ignored, `null` leaves a field untouched, a type mismatch records an
  error but decoding continues, later duplicate keys overwrite earlier
  ones, and missing keys keep the zero value.
-/

namespace Instabot

/-- JSON values, the parsed form of a wire payload. Numbers are restricted to
integers, which is all the `PhotoMetadata` struct (int64 `chat_id`) decodes. -/
inductive Json where
| str : String → Json
| num : Int → Json
| jbool : Bool → Json
| null : Json
| arr : List Json → Json
| obj : List (String × Json) → Json

/-- The wire record of src/caption/main.go lines 43-50, with the json field
tags chat_id, photo_url, caption, styled_url, published, photo_id. -/
structure PhotoMetadata where
  chatId : Int
  photoUrl : String
  caption : String
  styledUrl : String
  published : Bool
  photoId : String
deriving DecidableEq, Repr

/-- Go zero value of `PhotoMetadata`, the state of `var metadata PhotoMetadata`
before `json.Unmarshal` touches it. -/
def PhotoMetadata.zero : PhotoMetadata :=
  { chatId := 0, photoUrl := "", caption := "", styledUrl := "", published := false,
    photoId := "" }

/-- Response of the captioning API (src/caption/main.go lines 52-56). -/
structure CaptionApiResponse where
  output : String
  jobId : Int
  err : String
deriving DecidableEq, Repr

/-- Go zero value of `CaptionApiResponse`. -/
def CaptionApiResponse.zero : CaptionApiResponse := { output := "", jobId := 0, err := "" }

/-- json.Marshal of a `PhotoMetadata`, at the AST level: an object with the six
tagged fields in declaration order. -/
def marshalPhotoMetadata (m : PhotoMetadata) : Json :=
  Json.obj [("chat_id", Json.num m.chatId),
            ("photo_url", Json.str m.photoUrl),
            ("caption", Json.str m.caption),
            ("styled_url", Json.str m.styledUrl),
            ("published", Json.jbool m.published),
            ("photo_id", Json.str m.photoId)]

/-- One step of json.Unmarshal object decoding into `PhotoMetadata`: apply a
single key/value pair to the record built so far. The Bool accumulates
whether an error was recorded. Go semantics: a matching key of the right
type sets the field; `null` is a no-op; a type mismatch records an error
and continues; unknown keys are ignored. -/
def setField (acc : PhotoMetadata × Bool) (kv : String × Json) : PhotoMetadata × Bool :=
  match kv.1, kv.2 with
  | "chat_id", Json.num n => ({ acc.1 with chatId := n }, acc.2)
  | "chat_id", Json.null => acc
  | "chat_id", _ => (acc.1, true)
  | "photo_url", Json.str s => ({ acc.1 with photoUrl := s }, acc.2)
  | "photo_url", Json.null => acc
  | "photo_url", _ => (acc.1, true)
  | "caption", Json.str s => ({ acc.1 with caption := s }, acc.2)
  | "caption", Json.null => acc
  | "caption", _ => (acc.1, true)
  | "styled_url", Json.str s => ({ acc.1 with styledUrl := s }, acc.2)
  | "styled_url", Json.null => acc
  | "styled_url", _ => (acc.1, true)
  | "published", Json.jbool b => ({ acc.1 with published := b }, acc.2)
  | "published", Json.null => acc
  | "published", _ => (acc.1, true)
  | "photo_id", Json.str s => ({ acc.1 with photoId := s }, acc.2)
  | "photo_id", Json.null => acc
  | "photo_id", _ => (acc.1, true)
  | _, _ => acc

/-- json.Unmarshal of a wire payload into `PhotoMetadata`. The input is the
parse result of the payload bytes (`none` = not valid JSON). Returns the
decoded record together with an error flag, mirroring Go: on any error the
record keeps whatever fields were successfully decoded (the zero value for
a syntax error or a non-object document). -/
def unmarshalPhotoMetadata : Option Json → PhotoMetadata × Bool
| none => (PhotoMetadata.zero, true)
| some (Json.obj fields) => fields.foldl setField (PhotoMetadata.zero, false)
| some _ => (PhotoMetadata.zero, true)

/-- C9: JSON-encoding a PhotoMetadata and then decoding the result yields the
original record, with no decode error, for all field-value combinations —
including empty strings and chatId = 0. -/
theorem marshal_unmarshal_roundtrip (m : PhotoMetadata) :
    unmarshalPhotoMetadata (some (marshalPhotoMetadata m)) = (m, false) := by
  cases m
  rfl

/-- Host extraction of net/url (external library): the authority segment of a
URL, present only after a "//" (optionally preceded by a "scheme:"). A bare
string such as "not-a-url" parses with an empty host. -/
def schemeSplit : List Char → Option (List Char)
| [] => none
| c :: rest =>
    if c = ':' then some rest
    else if c = '/' || c = '?' || c = '#' then none
    else schemeSplit rest

/-- Authority part: the characters after a leading "//", up to the first
path, query or fragment delimiter; empty when there is no "//". -/
def hostPart : List Char → List Char
| '/' :: '/' :: rest => rest.takeWhile (fun c => c ≠ '/' && c ≠ '?' && c ≠ '#')
| _ => []

/-- Host of a parsed URL string, as url.Parse followed by `.Host`. -/
def urlHost (uri : String) : String :=
  let cs := uri.toList
  let rest := match schemeSplit cs with
    | some r => r
    | none => cs
  String.mk (hostPart rest)

/-- Kinds of log lines the worker emits (log.Printf call sites in main.go). -/
inductive LogKind where
| gotMessage | decodeFailed | gotMetadata | apiError | hsetFailed | publishFailed
| badUrl | getFailed | postFailed | apiDecodeFailed
deriving DecidableEq, Repr

/-- The multipart/form-data body built by `process`: one file field with the
fetched image bytes (the multipart framing itself is library code). -/
structure MultipartForm where
  fieldName : String
  fileName : String
  content : List Nat
deriving DecidableEq, Repr

/-- Observable effects of the worker: log lines, outbound HTTP calls, keyed
store writes (HSet key field value), and pub/sub publishes. -/
inductive Effect where
| logE : LogKind → Effect
| httpGetE : String → Effect
| httpPostE : String → String → MultipartForm → Effect
| hsetE : String → String → String → Effect
| publishE : String → Json → Effect

/-- Oracle for the external collaborators. `httpGet uri` is the result of
http.Get: `none` models the (nil, err) failure outcome, `some bytes` a
response whose body holds those bytes. `httpPostResult url key form` is the
result of client.Do on the POST: outer `none` is a transport failure (nil
response), `some none` a response whose body fails to decode as
`CaptionApiResponse`, `some (some r)` a decoded response. `hsetOk` and
`publishOk` tell whether the Redis HSet / Publish calls succeed. -/
structure GoWorld where
  httpGet : String → Option (List Nat)
  httpPostResult : String → String → MultipartForm → Option (Option CaptionApiResponse)
  hsetOk : String → String → String → Bool
  publishOk : String → Json → Bool

/-- Outcome of running a piece of Go code: a normal return, or a runtime
panic (here always a nil-pointer dereference). -/
inductive Outcome (α : Type) where
| ok : α → Outcome α
| panic : Outcome α
deriving DecidableEq, Repr

/-- Relevant worker configuration (src/caption/main.go lines 30-41):
captioning API url and key, and the pub/sub channel name. -/
structure WorkerConfig where
  captionUrl : String
  captionKey : String
  channel : String
deriving DecidableEq, Repr

/-- getPhoto (main.go lines 241-255): url.Parse host check (log only), then
http.Get. Note the function returns the response pointer unconditionally,
even when it is nil after a failed GET — the empty-host check and the GET
error only produce log lines. -/
def getPhoto (world : GoWorld) (uri : String) : List Effect × Option (List Nat) :=
  let parseLog := if urlHost uri = "" then [Effect.logE LogKind.badUrl] else []
  let resp := world.httpGet uri
  let getLog := match resp with
    | none => [Effect.logE LogKind.getFailed]
    | some _ => []
  (parseLog ++ [Effect.httpGetE uri] ++ getLog, resp)

/-- process (main.go lines 180-238): fetch the photo, build the multipart
body, POST to the captioning endpoint, decode the JSON response, and return
(Output, error) where the error is non-nil exactly when Err is non-empty.
Panics are faithful to the source: a nil response from getPhoto is
dereferenced at io.Copy(fw, resp.Body), and a nil response from client.Do
at json.NewDecoder(res.Body); a body decode failure is only logged, leaving
the zero-value `CaptionApiResponse`. -/
def process (cfg : WorkerConfig) (world : GoWorld) (metadata : PhotoMetadata) :
    List Effect × Outcome (String × Option String) :=
  let gp := getPhoto world metadata.photoUrl
  match gp.2 with
  | none => (gp.1, Outcome.panic)
  | some bodyBytes =>
    let form : MultipartForm := { fieldName := "image", fileName := "file.jpg", content := bodyBytes }
    let postE := Effect.httpPostE cfg.captionUrl cfg.captionKey form
    match world.httpPostResult cfg.captionUrl cfg.captionKey form with
    | none => (gp.1 ++ [postE, Effect.logE LogKind.postFailed], Outcome.panic)
    | some decodeRes =>
      let captionResponse := decodeRes.getD CaptionApiResponse.zero
      let decodeLog := match decodeRes with
        | none => [Effect.logE LogKind.apiDecodeFailed]
        | some _ => []
      let captionErr := if captionResponse.err.length ≠ 0 then some captionResponse.err else none
      (gp.1 ++ [postE] ++ decodeLog, Outcome.ok (captionResponse.output, captionErr))

/-- handleRedis (main.go lines 135-178): decode the payload (a decode failure
is logged but — faithfully to the source — not followed by a return), then
if the caption is empty run `process`; on its error log and return; on
success set the caption, HSet it under photoId (failure logged only),
marshal and publish the mutated record (failure logged only). -/
def handleRedis (cfg : WorkerConfig) (world : GoWorld) (payload : Option Json) :
    List Effect × Outcome Unit :=
  let dec := unmarshalPhotoMetadata payload
  let metadata := dec.1
  let decodeLog := if dec.2 then [Effect.logE LogKind.decodeFailed] else []
  let preLog := [Effect.logE LogKind.gotMessage] ++ decodeLog ++ [Effect.logE LogKind.gotMetadata]
  if metadata.caption.length = 0 then
    let pr := process cfg world metadata
    match pr.2 with
    | Outcome.panic => (preLog ++ pr.1, Outcome.panic)
    | Outcome.ok (_, some _) =>
        (preLog ++ pr.1 ++ [Effect.logE LogKind.apiError], Outcome.ok ())
    | Outcome.ok (caption, none) =>
        let metadata2 := { metadata with caption := caption }
        let hsetLog := if world.hsetOk metadata2.photoId "caption" caption then []
          else [Effect.logE LogKind.hsetFailed]
        let meta := marshalPhotoMetadata metadata2
        let pubLog := if world.publishOk cfg.channel meta then []
          else [Effect.logE LogKind.publishFailed]
        (preLog ++ pr.1 ++ [Effect.hsetE metadata2.photoId "caption" caption] ++ hsetLog
          ++ [Effect.publishE cfg.channel meta] ++ pubLog, Outcome.ok ())
  else (preLog, Outcome.ok ())

/-- The worker value: the Redis client handle is external, so only the
configuration is carried. -/
structure Worker where
  config : WorkerConfig
deriving DecidableEq, Repr

/-- Worker.Start (main.go lines 83-85): an empty body — no effects, returns
immediately. -/
def Worker.Start (_ : Worker) : List Effect × Unit := ([], ())

/-- setupRedis (main.go lines 108-133): subscribe, then range over the
subscription channel, spawning `go handleRedis(message)` per message. The
input list is the full stream delivered on the channel; the result is the
behaviour of each spawned goroutine, in arrival order. The range loop runs
until the stream ends, so setupRedis only returns afterwards. -/
def setupRedis (worker : Worker) (world : GoWorld) (inbound : List (Option Json)) :
    List (List Effect × Outcome Unit) :=
  inbound.map (handleRedis worker.config world)

/-- NewWorker (main.go lines 63-81): fatal abort (`none`) when the caption API
key is missing, otherwise build the worker and run setupRedis — consuming
the whole inbound stream — before returning. -/
def NewWorker (cfg : WorkerConfig) (world : GoWorld) (inbound : List (Option Json)) :
    Option (Worker × List (List Effect × Outcome Unit)) :=
  if cfg.captionKey.length = 0 then none
  else
    let worker : Worker := { config := cfg }
    some (worker, setupRedis worker world inbound)

/-- Keyed-store writes (key, field, value) occurring in a trace. -/
def storeWrites : List Effect → List (String × String × String)
| [] => []
| Effect.hsetE k f v :: t => (k, f, v) :: storeWrites t
| _ :: t => storeWrites t

/-- Publishes (channel, payload) occurring in a trace. -/
def publishes : List Effect → List (String × Json)
| [] => []
| Effect.publishE c j :: t => (c, j) :: publishes t
| _ :: t => publishes t

/-- Whether an effect is an outbound HTTP call (the CaptionService work:
image GET or captioning POST). -/
def isApiCall : Effect → Bool
| Effect.httpGetE _ => true
| Effect.httpPostE _ _ _ => true
| _ => false

/-- Whether a trace contains a log line of the given kind. -/
def hasLog (t : List Effect) (k : LogKind) : Bool :=
  t.any fun ef => match ef with
    | Effect.logE k2 => k2 = k
    | _ => false

/-- Test fixture: a worker configuration with a present API key. -/
def cfgA : WorkerConfig :=
  { captionUrl := "https://api.deepai.org/api/neuraltalk", captionKey := "k", channel := "queue" }

/-- Test fixture: a world where every external call succeeds and the
captioning API answers with caption "a dog running" (Scenario A). -/
def okWorld : GoWorld where
  httpGet := fun _ => some [1, 2]
  httpPostResult := fun _ _ _ => some (some { output := "a dog running", jobId := 1, err := "" })
  hsetOk := fun _ _ _ => true
  publishOk := fun _ _ => true

/-- Test fixture: the captioning API answers with a non-empty Err and a
non-empty Output. -/
def errWorld : GoWorld :=
  { okWorld with httpPostResult := fun _ _ _ => some (some { output := "x", jobId := 0, err := "e" }) }

/-- Test fixture: the image GET fails (http.Get returns a nil response). -/
def getFailWorld : GoWorld := { okWorld with httpGet := fun _ => none }

/-- Test fixture: the captioning POST fails in transport (client.Do returns a
nil response). -/
def postFailWorld : GoWorld := { okWorld with httpPostResult := fun _ _ _ => none }

/-- Test fixture: the keyed-store HSet fails. -/
def hsetFailWorld : GoWorld := { okWorld with hsetOk := fun _ _ _ => false }

/-- Test fixture: Scenario A's inbound record, caption not yet enriched. -/
def metaA : PhotoMetadata :=
  { chatId := 1, photoUrl := "https://img.example/1.jpg", caption := "", styledUrl := "",
    published := false, photoId := "p1" }

/-- Test fixture: Scenario A's inbound wire payload. -/
def payloadA : Option Json := some (marshalPhotoMetadata metaA)

/-- Test fixture: Scenario B's payload — the same record with the caption
already set, as republished output re-entering the channel. -/
def payloadCap : Option Json := some (marshalPhotoMetadata { metaA with caption := "a dog running" })

/-- storeWrites distributes over trace concatenation. -/
theorem storeWrites_append (a b : List Effect) :
    storeWrites (a ++ b) = storeWrites a ++ storeWrites b := by
  induction a with
  | nil => rfl
  | cons e t ih => cases e <;> simp [storeWrites, ih]

/-- publishes distributes over trace concatenation. -/
theorem publishes_append (a b : List Effect) :
    publishes (a ++ b) = publishes a ++ publishes b := by
  induction a with
  | nil => rfl
  | cons e t ih => cases e <;> simp [publishes, ih]

/-- A string has length 0 exactly when it is empty. -/
theorem string_length_zero_iff (s : String) : s.length = 0 ↔ s = "" := by
  cases s with
  | mk data =>
    cases data with
    | nil => simp [String.length]
    | cons c cs => simp [String.length, String.ext_iff]

/-- The trace of `process` holds only log lines and HTTP calls: no keyed-store
write and no publish ever originates inside `process`. -/
theorem process_trace_pure (cfg : WorkerConfig) (world : GoWorld) (m : PhotoMetadata) :
    storeWrites (process cfg world m).1 = [] ∧ publishes (process cfg world m).1 = [] := by
  by_cases hp : urlHost m.photoUrl = "" <;>
    cases hg : world.httpGet m.photoUrl with
  | none =>
    simp [process, getPhoto, hg, hp, storeWrites, publishes]
  | some bodyBytes =>
    cases hpost : world.httpPostResult cfg.captionUrl cfg.captionKey
        { fieldName := "image", fileName := "file.jpg", content := bodyBytes } with
    | none => simp [process, getPhoto, hg, hp, hpost, storeWrites, publishes]
    | some decodeRes =>
      cases decodeRes <;> simp [process, getPhoto, hg, hp, hpost, storeWrites, publishes]

/-- C1: an inbound message whose decoded record already carries a non-empty
caption triggers no enrichment at all — no HTTP call (so `process` is never
run), no keyed-store write, no publish, and handleRedis returns normally. -/
theorem handleRedis_nonempty_caption_no_enrichment
    (cfg : WorkerConfig) (world : GoWorld) (payload : Option Json)
    (h : (unmarshalPhotoMetadata payload).1.caption ≠ "") :
    (handleRedis cfg world payload).1.filter isApiCall = [] ∧
    storeWrites (handleRedis cfg world payload).1 = [] ∧
    publishes (handleRedis cfg world payload).1 = [] ∧
    (handleRedis cfg world payload).2 = Outcome.ok () := by
  have hlen : ¬ (unmarshalPhotoMetadata payload).1.caption.length = 0 := by
    intro h0
    exact h ((string_length_zero_iff _).mp h0)
  by_cases hd : (unmarshalPhotoMetadata payload).2 <;>
    simp [handleRedis, hlen, hd, storeWrites, publishes, isApiCall]

/-- C1 witness: Scenario B — the republished record (caption "a dog running")
re-enters the channel and is discarded without any enrichment effect. -/
theorem handleRedis_nonempty_caption_no_enrichment_witness :
    (handleRedis cfgA okWorld payloadCap).1.filter isApiCall = [] ∧
    storeWrites (handleRedis cfgA okWorld payloadCap).1 = [] ∧
    publishes (handleRedis cfgA okWorld payloadCap).1 = [] ∧
    (handleRedis cfgA okWorld payloadCap).2 = Outcome.ok () :=
  handleRedis_nonempty_caption_no_enrichment cfgA okWorld payloadCap (by decide)

/-- C2 (code-bug evaluation): a payload that fails to decode is logged but not
dropped — the decode-error branch of handleRedis lacks a return, so the
zero-value record (empty caption) flows on: the CaptionService is invoked
(two HTTP calls), the keyed store is written under the empty photoId, and an
enriched zero record is published. -/
theorem handleRedis_decode_failure_still_enriches :
    (unmarshalPhotoMetadata none).2 = true ∧
    hasLog (handleRedis cfgA okWorld none).1 LogKind.decodeFailed = true ∧
    ((handleRedis cfgA okWorld none).1.filter isApiCall).length = 2 ∧
    storeWrites (handleRedis cfgA okWorld none).1 = [("", "caption", "a dog running")] ∧
    publishes (handleRedis cfgA okWorld none).1 =
      [("queue", marshalPhotoMetadata { PhotoMetadata.zero with caption := "a dog running" })] :=
  ⟨rfl, rfl, rfl, rfl, rfl⟩

/-- Test fixture: a wire payload whose photo_url does not parse to a host. -/
def payloadBadUrl : Option Json :=
  some (Json.obj [("photo_url", Json.str "not-a-url"), ("photo_id", Json.str "p1")])

/-- C3 (code-bug evaluation): "not-a-url" parses with an empty host; http.Get
on it fails, getPhoto logs but returns the nil response anyway, and process
dereferences resp.Body — a nil-pointer panic that propagates through
handleRedis instead of a clean fetch failure. -/
theorem process_bad_url_panics :
    urlHost "not-a-url" = "" ∧
    (getPhoto getFailWorld "not-a-url").2 = none ∧
    hasLog (getPhoto getFailWorld "not-a-url").1 LogKind.badUrl = true ∧
    (process cfgA getFailWorld
      { PhotoMetadata.zero with photoUrl := "not-a-url", photoId := "p1" }).2 = Outcome.panic ∧
    (handleRedis cfgA getFailWorld payloadBadUrl).2 = Outcome.panic :=
  ⟨rfl, rfl, rfl, rfl, rfl⟩

/-- C4 counterexample: with API response Output "x", Err "e", process returns
the non-empty caption text "x" as its caption component alongside the error
— contradicting the claim that the Output text is not returned when Err is
non-empty. -/
theorem process_err_returns_output_counterexample :
    (process cfgA errWorld metaA).2 = Outcome.ok ("x", some "e") ∧ "x" ≠ "" :=
  ⟨rfl, by decide⟩

/-- C4 (amended): given the POST yields a decoded response r, process returns
r.Output as the caption component unconditionally, and the error is some
r.Err exactly when r.Err is non-empty (nil when empty). -/
theorem process_returns_output_and_err
    (cfg : WorkerConfig) (world : GoWorld) (m : PhotoMetadata) (bs : List Nat)
    (r : CaptionApiResponse)
    (h1 : world.httpGet m.photoUrl = some bs)
    (h2 : world.httpPostResult cfg.captionUrl cfg.captionKey
      { fieldName := "image", fileName := "file.jpg", content := bs } = some (some r)) :
    (process cfg world m).2 =
      Outcome.ok (r.output, if r.err.length ≠ 0 then some r.err else none) := by
  simp [process, getPhoto, h1, h2]

/-- C4 witness: the amended statement at the concrete failing response
Output "x", Err "e". -/
theorem process_returns_output_and_err_witness :
    (process cfgA errWorld metaA).2 =
      Outcome.ok ("x", if ("e" : String).length ≠ 0 then some "e" else none) :=
  process_returns_output_and_err cfgA errWorld metaA [1, 2]
    { output := "x", jobId := 0, err := "e" } rfl rfl

/-- C5: when the decoded record has an empty caption and process returns an
application error, handleRedis logs the error and aborts: no keyed-store
write, no publish, normal return. -/
theorem handleRedis_process_error_aborts
    (cfg : WorkerConfig) (world : GoWorld) (payload : Option Json) (c emsg : String)
    (hcap : (unmarshalPhotoMetadata payload).1.caption = "")
    (hproc : (process cfg world (unmarshalPhotoMetadata payload).1).2 =
      Outcome.ok (c, some emsg)) :
    storeWrites (handleRedis cfg world payload).1 = [] ∧
    publishes (handleRedis cfg world payload).1 = [] ∧
    hasLog (handleRedis cfg world payload).1 LogKind.apiError = true ∧
    (handleRedis cfg world payload).2 = Outcome.ok () := by
  have hlen : (unmarshalPhotoMetadata payload).1.caption.length = 0 := by
    rw [hcap]
    decide
  have hp1 := (process_trace_pure cfg world (unmarshalPhotoMetadata payload).1).1
  have hp2 := (process_trace_pure cfg world (unmarshalPhotoMetadata payload).1).2
  by_cases hd : (unmarshalPhotoMetadata payload).2 <;>
    simp [handleRedis, hlen, hd, hproc, storeWrites_append, publishes_append,
      storeWrites, publishes, hasLog, hp1, hp2]

/-- C5 witness: Scenario C — the API answers Err "invalid" on Scenario A's
record; the message is dropped with no store write and no republish. -/
theorem handleRedis_process_error_aborts_witness :
    storeWrites (handleRedis cfgA errWorld payloadA).1 = [] ∧
    publishes (handleRedis cfgA errWorld payloadA).1 = [] ∧
    hasLog (handleRedis cfgA errWorld payloadA).1 LogKind.apiError = true ∧
    (handleRedis cfgA errWorld payloadA).2 = Outcome.ok () :=
  handleRedis_process_error_aborts cfgA errWorld payloadA "x" "e" rfl rfl

/-- C6: when enrichment succeeds but the keyed-store HSet fails, the failure
is logged and the pipeline still publishes the mutated record. -/
theorem handleRedis_hset_failure_still_publishes
    (cfg : WorkerConfig) (world : GoWorld) (payload : Option Json) (c : String)
    (hcap : (unmarshalPhotoMetadata payload).1.caption = "")
    (hproc : (process cfg world (unmarshalPhotoMetadata payload).1).2 = Outcome.ok (c, none))
    (hfail : world.hsetOk (unmarshalPhotoMetadata payload).1.photoId "caption" c = false) :
    hasLog (handleRedis cfg world payload).1 LogKind.hsetFailed = true ∧
    publishes (handleRedis cfg world payload).1 =
      [(cfg.channel, marshalPhotoMetadata { (unmarshalPhotoMetadata payload).1 with caption := c })] ∧
    (handleRedis cfg world payload).2 = Outcome.ok () := by
  have hlen : (unmarshalPhotoMetadata payload).1.caption.length = 0 := by
    rw [hcap]
    decide
  have hp2 := (process_trace_pure cfg world (unmarshalPhotoMetadata payload).1).2
  by_cases hd : (unmarshalPhotoMetadata payload).2 <;>
    by_cases hpub : world.publishOk cfg.channel
      (marshalPhotoMetadata { (unmarshalPhotoMetadata payload).1 with caption := c }) <;>
    simp [handleRedis, hlen, hd, hproc, hfail, hpub, publishes_append, publishes,
      hasLog, hp2]

/-- C6 witness: Scenario A with a failing HSet — the hset failure is logged
and the enriched record is still published on the channel. -/
theorem handleRedis_hset_failure_still_publishes_witness :
    hasLog (handleRedis cfgA hsetFailWorld payloadA).1 LogKind.hsetFailed = true ∧
    publishes (handleRedis cfgA hsetFailWorld payloadA).1 =
      [("queue", marshalPhotoMetadata { metaA with caption := "a dog running" })] ∧
    (handleRedis cfgA hsetFailWorld payloadA).2 = Outcome.ok () :=
  handleRedis_hset_failure_still_publishes cfgA hsetFailWorld payloadA "a dog running"
    rfl rfl rfl

/-- C7 (code-bug evaluation): a transport failure of the captioning POST is
logged, but process then hands the nil response to json.NewDecoder
(res.Body) — a nil-pointer panic, not a recoverable abort; it propagates
through handleRedis. -/
theorem process_post_transport_failure_panics :
    hasLog (process cfgA postFailWorld metaA).1 LogKind.postFailed = true ∧
    (process cfgA postFailWorld metaA).2 = Outcome.panic ∧
    (handleRedis cfgA postFailWorld payloadA).2 = Outcome.panic :=
  ⟨rfl, rfl, rfl⟩

/-- C8: on a successfully decoded empty-caption record whose enrichment
succeeds with caption c, the keyed store receives field "caption" = c under
key photoId, and the published record carries caption c with every other
field (chatId, photoUrl, styledUrl, published, photoId) unchanged. -/
theorem handleRedis_success_persists_and_republishes
    (cfg : WorkerConfig) (world : GoWorld) (payload : Option Json) (m : PhotoMetadata)
    (c : String)
    (hdec : unmarshalPhotoMetadata payload = (m, false))
    (hcap : m.caption = "")
    (hproc : (process cfg world m).2 = Outcome.ok (c, none)) :
    storeWrites (handleRedis cfg world payload).1 = [(m.photoId, "caption", c)] ∧
    publishes (handleRedis cfg world payload).1 =
      [(cfg.channel, marshalPhotoMetadata
        { chatId := m.chatId, photoUrl := m.photoUrl, caption := c, styledUrl := m.styledUrl,
          published := m.published, photoId := m.photoId })] ∧
    (handleRedis cfg world payload).2 = Outcome.ok () := by
  have hlen : m.caption.length = 0 := by
    rw [hcap]
    decide
  have hp1 := (process_trace_pure cfg world m).1
  have hp2 := (process_trace_pure cfg world m).2
  by_cases hs : world.hsetOk m.photoId "caption" c <;>
    by_cases hpub : world.publishOk cfg.channel
      (marshalPhotoMetadata { m with caption := c }) <;>
    simp [handleRedis, hdec, hlen, hproc, hs, hpub, storeWrites_append, publishes_append,
      storeWrites, publishes, hp1, hp2]

/-- C8 witness: Scenario A — record p1 with empty caption, the API answers
"a dog running"; the store write is ("p1", "caption", "a dog running") and
the republished record differs from the inbound one only in the caption. -/
theorem handleRedis_success_persists_and_republishes_witness :
    storeWrites (handleRedis cfgA okWorld payloadA).1 = [("p1", "caption", "a dog running")] ∧
    publishes (handleRedis cfgA okWorld payloadA).1 =
      [("queue", marshalPhotoMetadata { metaA with caption := "a dog running" })] ∧
    (handleRedis cfgA okWorld payloadA).2 = Outcome.ok () :=
  handleRedis_success_persists_and_republishes cfgA okWorld payloadA metaA "a dog running"
    rfl rfl rfl

/-- C10: Worker.Start has no effect at all, and NewWorker — when the API key
is present — runs the subscribe-and-dispatch loop itself (via setupRedis):
its return value already reflects the dispatch of every inbound message, so
it does not return while the worker is consuming the stream. -/
theorem start_noop_loop_runs_in_newworker
    (w : Worker) (cfg : WorkerConfig) (world : GoWorld) (inbound : List (Option Json))
    (hkey : cfg.captionKey.length ≠ 0) :
    w.Start = ([], ()) ∧
    NewWorker cfg world inbound =
      some ({ config := cfg }, inbound.map (handleRedis cfg world)) := by
  refine ⟨rfl, ?_⟩
  simp [NewWorker, setupRedis, hkey]

/-- C10 witness: with a present API key and a one-message stream, NewWorker
returns the dispatched behaviour of that message, while Start does nothing. -/
theorem start_noop_loop_runs_in_newworker_witness :
    Worker.Start { config := cfgA } = ([], ()) ∧
    NewWorker cfgA okWorld [payloadA] =
      some ({ config := cfgA }, [handleRedis cfgA okWorld payloadA]) :=
  start_noop_loop_runs_in_newworker { config := cfgA } cfgA okWorld [payloadA] (by decide)

end Instabot
